import Mathlib

set_option maxHeartbeats 1000000

/-!
Shallow embedding of `src/lib/django/djff/static/djff/old_cq_interface.js`,
the client-side capture-job-queue synchronizer.

The script runs inside `$(document).ready(...)` and communicates with the
server through `window.ff.celery_async`.  Its mutable world is a handful of
globals (`window.ff.push_queue_on_update`, `window.fishface_monitoring`,
`window.fishface_update_loop`, `window.ff.keep_job_in_queue`, ...) plus the
DOM nodes it reads and writes.  We model that world as one `State` record;
issuing a network call or scheduling a timer appends a record to an
append-only log inside the state, so every observable effect of a handler is
a field of the resulting state.  Each JS function becomes a `State → State`
function (or `State → State × Bool` where the JS can throw, the `Bool`
recording that a `TypeError` escaped; DOM mutations made before the throw
persist, as they do in the browser).

Helpers living in other files of the repository (`window.ff.celery_async`,
`cq_util.get_queue_array`, `cq_util.no_jobs_placeholder`) are modelled from
the spec and say so in their doc comments.
-/

namespace OldCq

/-- A queue entry.  This file treats job specs opaquely: they are carried in
`data-attrib_job_spec` attributes and rendered by `cq_util` helpers, so a
spec is just its attribute string. -/
abbrev JobSpec := String

/-- `data.current_job` as read by `repopulate_fields` (lines 15–29). -/
structure CurrentJob where
  status : String
  remaining : Int
  total : Int
  voltage : Int
  current : Int
  seconds_left : Int
  xp_id : String
  cjr_id : Option Int
  deriving DecidableEq, Repr

/-- `data.staged_job` as read by `repopulate_fields` (lines 37–43). -/
structure StagedJob where
  status : String
  voltage : Int
  current : Int
  deriving DecidableEq, Repr

/-- The `queue` field of a status response.  `undef` is the JS `undefined`
(the field is missing: `data.queue.length` then throws a TypeError);
`jsFalse` is the falsy sentinel `false` (`false.length` is `undefined`, so
`data.queue.length > 0` is simply false); `arr` is an ordinary array. -/
inductive QueueField
  | undef
  | jsFalse
  | arr (jobs : List JobSpec)
  deriving DecidableEq, Repr

/-- The `data` argument of `repopulate_fields`: the status snapshot returned
by `cjc.complete_status`.  `none` stands for a missing field (JS
`undefined`). -/
structure Snapshot where
  xp_id : Option String
  current_job : Option CurrentJob
  staged_job : Option StagedJob
  queue : QueueField
  deriving DecidableEq, Repr

/-- Which completion callback a `celery_async` call site registers. -/
inductive CallbackId
  | repopulate_fields
  | repop_in_1_second
  deriving DecidableEq, Repr

/-- The `queue:` entry of a `cjc.set_queue` argument object: `raw` is the
plain array (`queue: queue_array`, line 116), `jsonStr` the JSON-stringified
form (`queue: JSON.stringify([])`, line 131). -/
inductive QueueArg
  | raw (jobs : List JobSpec)
  | jsonStr (jobs : List JobSpec)
  deriving DecidableEq, Repr

/-- One positional argument of a `window.ff.celery_async` call, as written at
the call sites of this file. -/
inductive CelArg
  | undef
  | emptyObj
  | jsTrue
  | jsFalse
  | payload (queue : QueueArg) (xp_id : Option String) (species : Option String)
  deriving DecidableEq, Repr

/-- A record of one `window.ff.celery_async` invocation: the task name, the
completion callback, and the third and fourth positional arguments exactly as
the call site passes them. -/
structure IssuedCall where
  task : String
  callback : CallbackId
  arg3 : CelArg
  arg4 : CelArg
  deriving DecidableEq, Repr

/-- What a scheduled `window.setTimeout` body does when it fires. -/
inductive TimerAction
  | repopNow
  | removeWarning
  deriving DecidableEq, Repr

/-- A live `window.setInterval` registration. -/
structure Interval where
  handle : Nat
  msec : Nat
  deriving DecidableEq, Repr

/-- The script's mutable world: the globals it owns plus the DOM state it
reads and writes, with append-only logs of issued network calls and scheduled
one-shot timers. -/
structure State where
  /-- `data-xp_id` attribute of `#xp_display_wrapper`. -/
  xp_id_attr : String
  /-- `window.ff.push_queue_on_update` (initially unset, i.e. falsy). -/
  push_queue_on_update : Bool
  /-- `window.fishface_monitoring` (set to `false` at startup, line 279). -/
  monitoring : Bool
  /-- `window.fishface_update_loop`: the last interval handle, if any. -/
  update_loop_handle : Option Nat
  /-- Fresh-handle supply for `window.setInterval`. -/
  next_handle : Nat
  /-- The intervals currently live (registered and not cleared). -/
  active_intervals : List Interval
  /-- `window.ff.keep_job_in_queue` (0 or 1). -/
  keep_job_in_queue : Nat
  /-- `window.ff.new_item`. -/
  new_item : Option JobSpec
  /-- `window.ff.attrib_job_spec`. -/
  attrib_job_spec : Option JobSpec
  /-- `window.ff.xp_names`: experiment id → display name. -/
  xp_names : List (String × String)
  /-- `window.ff.xp_species`: experiment id → species. -/
  xp_species : List (String × String)
  /-- `#capturejob_queue_wrapper` is displayed. -/
  cjq_wrapper_visible : Bool
  /-- `#xp_display_wrapper` is displayed. -/
  xp_display_visible : Bool
  /-- `#xp_select_wrapper` is displayed. -/
  xp_select_visible : Bool
  /-- `#xp_id_header` contents. -/
  xp_id_header : Option String
  /-- `#current_job_wrapper` is displayed (`css('display') != 'none'`). -/
  current_job_wrapper_visible : Bool
  /-- Contents of the current-job fields (stale contents persist when the
  wrapper is merely hidden). -/
  current_job_render : Option (String × String × String × String × String)
  /-- `#staged_job_wrapper` is displayed. -/
  staged_job_wrapper_visible : Bool
  /-- Contents of the staged-job fields. -/
  staged_job_render : Option (String × String)
  /-- `#go_button` has its green background. -/
  go_button_green : Bool
  /-- The job items of `#capture_job_queue` (the transient working copy),
  excluding the placeholder `li`. -/
  queue_dom : List JobSpec
  /-- `#queue_placeholder` is present in the list. -/
  placeholder_shown : Bool
  /-- The `#no_change_during_run` warning notice is present. -/
  warning_shown : Bool
  /-- Log of `window.ff.celery_async` invocations, oldest first. -/
  calls : List IssuedCall
  /-- Log of scheduled `window.setTimeout` one-shots `(body, msec)`. -/
  timeouts : List (TimerAction × Nat)
  deriving DecidableEq, Repr

/-- The state right after the `document.ready` body's trailing statements
(line 279 sets `window.fishface_monitoring = false`; the other globals are
still unset, i.e. falsy), before the startup `repop_now()` response arrives
and with no experiment selected. -/
def init_state : State where
  xp_id_attr := ""
  push_queue_on_update := false
  monitoring := false
  update_loop_handle := none
  next_handle := 0
  active_intervals := []
  keep_job_in_queue := 0
  new_item := none
  attrib_job_spec := none
  xp_names := []
  xp_species := []
  cjq_wrapper_visible := false
  xp_display_visible := false
  xp_select_visible := true
  xp_id_header := none
  current_job_wrapper_visible := false
  current_job_render := none
  staged_job_wrapper_visible := false
  staged_job_render := none
  go_button_green := false
  queue_dom := []
  placeholder_shown := true
  warning_shown := false
  calls := []
  timeouts := []

/-- JS ToNumber-is-zero on a string, for the loose comparison `v != false`
(ToNumber trims whitespace; `""`, `"0"`, `"-0"`, `"0.0"`, `"00"` all convert
to `0`).  Decimal literals only: exponent and hex forms do not occur as
experiment ids. -/
def jsStringNumberIsZero (v : String) : Bool :=
  let ws : Char → Bool := fun c => c = ' ' || c = '\t' || c = '\n' || c = '\r'
  let t := ((v.toList.dropWhile ws).reverse.dropWhile ws).reverse
  match t with
  | [] => true
  | c :: cs =>
    let t := if c = '+' || c = '-' then cs else c :: cs
    !t.isEmpty && t.all (fun c => c = '0' || c = '.')
      && decide (t.count '.' ≤ 1) && t.any (fun c => c = '0')

/-- The JS loose inequality `v != false` where `v` is a `check_xp_id` result:
the boolean `false` (here `none`) or a string.  `false != false` is false;
for a string it fails exactly when `ToNumber v = 0`. -/
def jsNeqFalse : Option String → Bool
  | none => false
  | some v => !(jsStringNumberIsZero v)

/-- JS truthiness of a `check_xp_id` result: `false` is falsy, a string is
truthy unless empty. -/
def jsTruthy : Option String → Bool
  | none => false
  | some v => v != ""

/-- JS object indexing `window.ff.xp_species[xp_id]` coerces a `false` key to
the string `"false"`. -/
def jsKey : Option String → String
  | none => "false"
  | some v => v

/-- Modelled from the spec: `window.ff.celery_async` is defined elsewhere in
the repository (not under `src/`).  Per §6 it issues one request to the
Remote Job Controller per invocation — fetch-status (`cjc.complete_status`),
replace-queue (`cjc.set_queue`) or abort-all (`cjc.abort_all`) — taking the
operation payload as its third argument (as at the fetch-status call site,
line 156, whose third argument is the `{}` input of §6's table) and invoking
the given callback when the call completes.  Issuing is modelled by appending
the full argument record to the call log. -/
def celery_async (task : String) (cb : CallbackId) (arg3 arg4 : CelArg)
    (s : State) : State :=
  { s with calls := s.calls ++ [⟨task, cb, arg3, arg4⟩] }

/-- `repop_now` (lines 142–157): immediately requests a fresh status snapshot
with `repopulate_fields` as the completion callback. -/
def repop_now (s : State) : State :=
  celery_async ("cjc.complete_status") .repopulate_fields .emptyObj .jsTrue s

/-- `repop_in_milliseconds` (lines 159–162, unused in the source). -/
def repop_in_milliseconds (msec : Nat) (s : State) : State :=
  { s with timeouts := s.timeouts ++ [(TimerAction.repopNow, msec)] }

/-- `repop_in_1_second` (lines 164–167): the completion callback registered
by every mutating call; schedules one `repop_now` 1000 ms later.  Its `data`,
`status` and `jqXHR` arguments are ignored. -/
def repop_in_1_second (s : State) : State :=
  { s with timeouts := s.timeouts ++ [(TimerAction.repopNow, 1000)] }

/-- `start_periodic_monitor` (lines 174–182): a no-op unless
`window.fishface_monitoring == false`; otherwise registers a 500 ms
`repop_now` interval and marks monitoring. -/
def start_periodic_monitor (s : State) : State :=
  if s.monitoring = false then
    { s with
      update_loop_handle := some s.next_handle
      active_intervals := s.active_intervals ++ [⟨s.next_handle, 500⟩]
      next_handle := s.next_handle + 1
      monitoring := true }
  else s

/-- `stop_periodic_monitor` (lines 184–187): clears the stored interval
handle (`clearInterval(undefined)` is a no-op) and marks not monitoring.  The
handle variable itself is not unset. -/
def stop_periodic_monitor (s : State) : State :=
  { s with
    active_intervals :=
      match s.update_loop_handle with
      | some h => s.active_intervals.filter (fun iv => iv.handle ≠ h)
      | none => s.active_intervals
    monitoring := false }

/-- `get_xp_id` (lines 80–83): reads the `data-xp_id` attribute and returns
the JS boolean `false` (here `none`) when it is the empty string. -/
def get_xp_id (s : State) : Option String :=
  if s.xp_id_attr = "" then none else some s.xp_id_attr

/-- `check_xp_id` (lines 85–99): returns `get_xp_id()` when it loosely
compares unequal to both `""` and `'false'` (note `false != ""` is *false*
under JS loose equality, so the boolean `false` takes the else branch), and
shows/hides the experiment display accordingly.  In the else branch the local
is reassigned to `false` (here `none`) before being returned. -/
def check_xp_id (s : State) : Option String × State :=
  match get_xp_id s with
  | some v =>
    if v ≠ "" ∧ v ≠ "false" then
      (some v,
       { s with
         cjq_wrapper_visible := true
         xp_id_header := s.xp_names.lookup v
         xp_display_visible := true
         xp_select_visible := false })
    else
      (none,
       { s with
         cjq_wrapper_visible := false
         xp_display_visible := false
         xp_select_visible := true })
  | none =>
    (none,
     { s with
       cjq_wrapper_visible := false
       xp_display_visible := false
       xp_select_visible := true })

/-- Lines 5–8 of `repopulate_fields`: adopt the snapshot's `xp_id` into the
`data-xp_id` attribute only when both `data.xp_id` and `data.current_job` are
present. -/
def adopt_xp (data : Snapshot) (s : State) : State :=
  match data.xp_id, data.current_job with
  | some xid, some _ => { s with xp_id_attr := xid }
  | _, _ => s

/-- Line 12's guard, evaluated on the state reached after lines 5–8: whether
`check_xp_id()` loosely compares unequal to `false`, i.e. whether an
experiment counts as selected for the body of `repopulate_fields`. -/
def xp_gate (s : State) : Bool :=
  jsNeqFalse (check_xp_id s).1

/-- Lines 15–35 of `repopulate_fields`: render or hide the current job, set
`window.ff.push_queue_on_update`, and arm or (when no staged job either)
disarm the periodic monitor. -/
def render_current_job (data : Snapshot) (s : State) : State :=
  match data.current_job with
  | some cj =>
    let slug :=
      match cj.cjr_id with
      | some cjr => "(XP_" ++ cj.xp_id ++ "_CJR_" ++ toString cjr ++ ")"
      | none => ""
    start_periodic_monitor
      { s with
        current_job_wrapper_visible := true
        current_job_render := some
          (cj.status,
           toString cj.remaining ++ "/" ++ toString cj.total,
           toString cj.voltage ++ "V with a maximum of "
             ++ toString cj.current ++ "A",
           toString cj.seconds_left,
           slug)
        push_queue_on_update := true }
  | none =>
    let s :=
      { s with
        push_queue_on_update := false
        current_job_wrapper_visible := false
        go_button_green := false }
    if data.staged_job.isNone then stop_periodic_monitor s else s

/-- Lines 37–46 of `repopulate_fields`: render or hide the staged job. -/
def render_staged_job (data : Snapshot) (s : State) : State :=
  match data.staged_job with
  | some sj =>
    { s with
      staged_job_wrapper_visible := true
      staged_job_render := some
        (sj.status,
         toString sj.voltage ++ "V with a maximum of "
           ++ toString sj.current ++ "A") }
  | none => { s with staged_job_wrapper_visible := false }

/-- Lines 48–59 of `repopulate_fields`: repopulate the queue list.  Reading
`data.queue.length` throws a TypeError when the field is absent (the `Bool`
result records the throw; the DOM mutations already made persist).  For the
falsy sentinel `false`, `false.length > 0` is simply false, so the
placeholder branch runs. -/
def render_queue (q : QueueField) (repop_xp_id : Option String) (s : State) :
    State × Bool :=
  match q with
  | .undef => (s, true)
  | .jsFalse => ({ s with queue_dom := [], placeholder_shown := true }, false)
  | .arr jobs =>
    if jobs.length > 0 ∧ jsTruthy repop_xp_id = true then
      ({ s with queue_dom := jobs, placeholder_shown := false }, false)
    else
      ({ s with queue_dom := [], placeholder_shown := true }, false)

/-- `repopulate_fields` (lines 4–62): the completion callback of
`cjc.complete_status`, applying a status snapshot.  Returns the new state and
whether a TypeError escaped (only possible at line 48, when `data.queue` is
absent). -/
def repopulate_fields (data : Snapshot) (s : State) : State × Bool :=
  let s := adopt_xp data s
  let (repop_xp_id, s) := check_xp_id s
  if jsNeqFalse repop_xp_id = true then
    let s := { s with cjq_wrapper_visible := true }
    let s := render_current_job data s
    let s := render_staged_job data s
    render_queue data.queue repop_xp_id s
  else
    (s, false)

/-- Modelled from the spec: `cq_util.get_queue_array` is defined elsewhere in
the repository (not under `src/`).  Per §3's lifecycle it reads the transient
working copy of the queue — the job items of the rendered list, which
excludes the placeholder `li`. -/
def get_queue_array (s : State) : List JobSpec :=
  s.queue_dom

/-- Modelled from the spec: `cq_util.no_jobs_placeholder` is defined
elsewhere in the repository (not under `src/`).  Per §4.3 ("if ... the
working copy becomes empty: show empty-queue placeholder") it shows the
placeholder when the working copy is empty. -/
def no_jobs_placeholder (s : State) : State :=
  if s.queue_dom.isEmpty then { s with placeholder_shown := true } else s

/-- `push_entire_queue` (lines 107–122): one `cjc.set_queue` call carrying
the whole working copy.  Line 109's guard `queue_array != []` loosely
compares the array against a fresh array object, which is reference
inequality and therefore always true, so the call is unconditional. -/
def push_entire_queue (s : State) : State :=
  let queue_array := get_queue_array s
  let xp_id := get_xp_id s
  celery_async ("cjc.set_queue") .repop_in_1_second
    (.payload (.raw queue_array) xp_id (s.xp_species.lookup (jsKey xp_id)))
    .undef s

/-- `window.ff.cq_util.clear_queue` (lines 124–140).  Note the call site's
argument list: the literal `false` occupies the third (payload) position and
the `{queue, xp_id, species}` object is passed as the fourth argument. -/
def clear_queue (s : State) : State :=
  let xp_id := get_xp_id s
  if s.push_queue_on_update = true then
    celery_async ("cjc.set_queue") .repop_in_1_second .jsFalse
      (.payload (.jsonStr []) xp_id (s.xp_species.lookup (jsKey xp_id))) s
  else
    { s with queue_dom := [], placeholder_shown := true }

/-- `start_queue` (lines 101–105). -/
def start_queue (s : State) : State :=
  push_entire_queue { s with go_button_green := true }

/-- `abort_all` (lines 169–172). -/
def abort_all (s : State) : State :=
  celery_async ("cjc.abort_all") .repop_in_1_second .undef .undef s

/-- `change_experiment` (lines 64–78): allowed only while
`#current_job_wrapper` is hidden; otherwise appends the transient
`#no_change_during_run` notice and schedules its removal 3000 ms later. -/
def change_experiment (s : State) : State :=
  if s.current_job_wrapper_visible = false then
    (check_xp_id { s with xp_id_attr := "" }).2
  else
    { s with
      warning_shown := true
      timeouts := s.timeouts ++ [(TimerAction.removeWarning, 3000)] }

/-- The body of the 3000 ms timeout scheduled in `change_experiment`
(lines 73–76): removes the warning notice. -/
def remove_warning (s : State) : State :=
  { s with warning_shown := false }

/-- The `#xp_select_form` submit handler (lines 207–213):
`+$('input[name=xp]:checked').val()` coerces the checked value to a number,
which setting the attribute stringifies again; then `check_xp_id()` and an
immediate `repop_now()`. -/
def xp_select_form_submit (chosen : Int) (s : State) : State :=
  repop_now (check_xp_id { s with xp_id_attr := toString chosen }).2

/-- The sortable `start` handler (lines 225–227). -/
def sortable_start (s : State) : State :=
  stop_periodic_monitor s

/-- The sortable `over` handler (lines 229–231). -/
def sortable_over (s : State) : State :=
  { s with keep_job_in_queue := 1 }

/-- The sortable `out` handler (lines 233–235). -/
def sortable_out (s : State) : State :=
  { s with keep_job_in_queue := 0 }

/-- The sortable `update` handler (lines 237–247): fires on drop once the
widget has already re-ordered the DOM list, so the state's `queue_dom` is the
working copy in its new order. -/
def sortable_update (s : State) : State :=
  let s := { s with placeholder_shown := false }
  let s :=
    if s.push_queue_on_update = true then
      start_periodic_monitor (repop_now (push_entire_queue s))
    else s
  no_jobs_placeholder s

/-- The sortable `beforeStop` handler (lines 254–270); `item` is the dragged
job, still present in the DOM list at position `idx` until
`ui.item.remove()`. -/
def sortable_beforeStop (idx : Nat) (item : JobSpec) (s : State) : State :=
  if s.keep_job_in_queue = 0 then
    let s := { s with queue_dom := s.queue_dom.eraseIdx idx }
    let s :=
      if (get_queue_array s).length = 0 then no_jobs_placeholder s else s
    if s.push_queue_on_update = true then
      start_periodic_monitor (repop_now (push_entire_queue s))
    else s
  else
    { s with new_item := some item, attrib_job_spec := some item }

/-- The `cjc.set_queue` call record `push_entire_queue` issues from state
`s`. -/
def set_queue_call (s : State) : IssuedCall :=
  ⟨"cjc.set_queue", .repop_in_1_second,
   .payload (.raw (get_queue_array s)) (get_xp_id s)
     (s.xp_species.lookup (jsKey (get_xp_id s))),
   .undef⟩

/-- The `cjc.complete_status` call record `repop_now` issues. -/
def fetch_status_call : IssuedCall :=
  ⟨"cjc.complete_status", .repopulate_fields, .emptyObj, .jsTrue⟩

/-! Field-preservation lemmas for the monitor functions -/

@[simp] lemma start_pm_monitoring (s : State) :
    (start_periodic_monitor s).monitoring = true := by
  unfold start_periodic_monitor; split <;> simp_all

@[simp] lemma start_pm_push (s : State) :
    (start_periodic_monitor s).push_queue_on_update = s.push_queue_on_update := by
  unfold start_periodic_monitor; split <;> rfl

@[simp] lemma start_pm_xp_id_attr (s : State) :
    (start_periodic_monitor s).xp_id_attr = s.xp_id_attr := by
  unfold start_periodic_monitor; split <;> rfl

@[simp] lemma start_pm_calls (s : State) :
    (start_periodic_monitor s).calls = s.calls := by
  unfold start_periodic_monitor; split <;> rfl

@[simp] lemma start_pm_timeouts (s : State) :
    (start_periodic_monitor s).timeouts = s.timeouts := by
  unfold start_periodic_monitor; split <;> rfl

@[simp] lemma start_pm_queue_dom (s : State) :
    (start_periodic_monitor s).queue_dom = s.queue_dom := by
  unfold start_periodic_monitor; split <;> rfl

@[simp] lemma start_pm_placeholder (s : State) :
    (start_periodic_monitor s).placeholder_shown = s.placeholder_shown := by
  unfold start_periodic_monitor; split <;> rfl

@[simp] lemma start_pm_cjw_visible (s : State) :
    (start_periodic_monitor s).current_job_wrapper_visible
      = s.current_job_wrapper_visible := by
  unfold start_periodic_monitor; split <;> rfl

@[simp] lemma stop_pm_monitoring (s : State) :
    (stop_periodic_monitor s).monitoring = false := rfl

@[simp] lemma stop_pm_push (s : State) :
    (stop_periodic_monitor s).push_queue_on_update = s.push_queue_on_update := rfl

@[simp] lemma stop_pm_xp_id_attr (s : State) :
    (stop_periodic_monitor s).xp_id_attr = s.xp_id_attr := rfl

@[simp] lemma stop_pm_calls (s : State) :
    (stop_periodic_monitor s).calls = s.calls := rfl

@[simp] lemma stop_pm_timeouts (s : State) :
    (stop_periodic_monitor s).timeouts = s.timeouts := rfl

@[simp] lemma stop_pm_queue_dom (s : State) :
    (stop_periodic_monitor s).queue_dom = s.queue_dom := rfl

@[simp] lemma stop_pm_placeholder (s : State) :
    (stop_periodic_monitor s).placeholder_shown = s.placeholder_shown := rfl

@[simp] lemma stop_pm_cjw_visible (s : State) :
    (stop_periodic_monitor s).current_job_wrapper_visible
      = s.current_job_wrapper_visible := rfl
/-! Field-preservation lemmas for `check_xp_id` and `adopt_xp` -/

@[simp] lemma check2_xp_id_attr (s : State) :
    (check_xp_id s).2.xp_id_attr = s.xp_id_attr := by
  unfold check_xp_id; cases h : get_xp_id s <;> simp <;> split <;> rfl

@[simp] lemma check2_push (s : State) :
    (check_xp_id s).2.push_queue_on_update = s.push_queue_on_update := by
  unfold check_xp_id; cases h : get_xp_id s <;> simp <;> split <;> rfl

@[simp] lemma check2_monitoring (s : State) :
    (check_xp_id s).2.monitoring = s.monitoring := by
  unfold check_xp_id; cases h : get_xp_id s <;> simp <;> split <;> rfl

@[simp] lemma check2_active_intervals (s : State) :
    (check_xp_id s).2.active_intervals = s.active_intervals := by
  unfold check_xp_id; cases h : get_xp_id s <;> simp <;> split <;> rfl

@[simp] lemma check2_cj_render (s : State) :
    (check_xp_id s).2.current_job_render = s.current_job_render := by
  unfold check_xp_id; cases h : get_xp_id s <;> simp <;> split <;> rfl

@[simp] lemma check2_sj_render (s : State) :
    (check_xp_id s).2.staged_job_render = s.staged_job_render := by
  unfold check_xp_id; cases h : get_xp_id s <;> simp <;> split <;> rfl

@[simp] lemma check2_queue_dom (s : State) :
    (check_xp_id s).2.queue_dom = s.queue_dom := by
  unfold check_xp_id; cases h : get_xp_id s <;> simp <;> split <;> rfl

@[simp] lemma check2_placeholder (s : State) :
    (check_xp_id s).2.placeholder_shown = s.placeholder_shown := by
  unfold check_xp_id; cases h : get_xp_id s <;> simp <;> split <;> rfl

@[simp] lemma check2_calls (s : State) :
    (check_xp_id s).2.calls = s.calls := by
  unfold check_xp_id; cases h : get_xp_id s <;> simp <;> split <;> rfl

@[simp] lemma check2_timeouts (s : State) :
    (check_xp_id s).2.timeouts = s.timeouts := by
  unfold check_xp_id; cases h : get_xp_id s <;> simp <;> split <;> rfl

@[simp] lemma check2_cjw_visible (s : State) :
    (check_xp_id s).2.current_job_wrapper_visible
      = s.current_job_wrapper_visible := by
  unfold check_xp_id; cases h : get_xp_id s <;> simp <;> split <;> rfl

@[simp] lemma adopt_xp_push (data : Snapshot) (s : State) :
    (adopt_xp data s).push_queue_on_update = s.push_queue_on_update := by
  unfold adopt_xp; split <;> rfl

@[simp] lemma adopt_xp_monitoring (data : Snapshot) (s : State) :
    (adopt_xp data s).monitoring = s.monitoring := by
  unfold adopt_xp; split <;> rfl

@[simp] lemma adopt_xp_active_intervals (data : Snapshot) (s : State) :
    (adopt_xp data s).active_intervals = s.active_intervals := by
  unfold adopt_xp; split <;> rfl

@[simp] lemma adopt_xp_cj_render (data : Snapshot) (s : State) :
    (adopt_xp data s).current_job_render = s.current_job_render := by
  unfold adopt_xp; split <;> rfl

@[simp] lemma adopt_xp_sj_render (data : Snapshot) (s : State) :
    (adopt_xp data s).staged_job_render = s.staged_job_render := by
  unfold adopt_xp; split <;> rfl

@[simp] lemma adopt_xp_queue_dom (data : Snapshot) (s : State) :
    (adopt_xp data s).queue_dom = s.queue_dom := by
  unfold adopt_xp; split <;> rfl

@[simp] lemma adopt_xp_calls (data : Snapshot) (s : State) :
    (adopt_xp data s).calls = s.calls := by
  unfold adopt_xp; split <;> rfl

@[simp] lemma adopt_xp_timeouts (data : Snapshot) (s : State) :
    (adopt_xp data s).timeouts = s.timeouts := by
  unfold adopt_xp; split <;> rfl

@[simp] lemma adopt_xp_placeholder (data : Snapshot) (s : State) :
    (adopt_xp data s).placeholder_shown = s.placeholder_shown := by
  unfold adopt_xp; split <;> rfl

@[simp] lemma adopt_xp_cjw_visible (data : Snapshot) (s : State) :
    (adopt_xp data s).current_job_wrapper_visible
      = s.current_job_wrapper_visible := by
  unfold adopt_xp; split <;> rfl
/-! Behavior of the three render steps -/

@[simp] lemma rc_push (data : Snapshot) (s : State) :
    (render_current_job data s).push_queue_on_update
      = data.current_job.isSome := by
  unfold render_current_job
  cases data.current_job <;> simp <;> split <;> simp

@[simp] lemma rc_cjw_visible (data : Snapshot) (s : State) :
    (render_current_job data s).current_job_wrapper_visible
      = data.current_job.isSome := by
  unfold render_current_job
  cases data.current_job <;> simp <;> split <;> simp

@[simp] lemma rc_xp_id_attr (data : Snapshot) (s : State) :
    (render_current_job data s).xp_id_attr = s.xp_id_attr := by
  unfold render_current_job
  cases data.current_job <;> simp <;> split <;> simp

@[simp] lemma rc_calls (data : Snapshot) (s : State) :
    (render_current_job data s).calls = s.calls := by
  unfold render_current_job
  cases data.current_job <;> simp <;> split <;> simp

@[simp] lemma rc_timeouts (data : Snapshot) (s : State) :
    (render_current_job data s).timeouts = s.timeouts := by
  unfold render_current_job
  cases data.current_job <;> simp <;> split <;> simp

@[simp] lemma rc_queue_dom (data : Snapshot) (s : State) :
    (render_current_job data s).queue_dom = s.queue_dom := by
  unfold render_current_job
  cases data.current_job <;> simp <;> split <;> simp

@[simp] lemma rc_placeholder (data : Snapshot) (s : State) :
    (render_current_job data s).placeholder_shown = s.placeholder_shown := by
  unfold render_current_job
  cases data.current_job <;> simp <;> split <;> simp

lemma rc_monitoring_some (data : Snapshot) (s : State)
    (h : data.current_job.isSome = true) :
    (render_current_job data s).monitoring = true := by
  unfold render_current_job
  cases hc : data.current_job <;> simp [hc] at h ⊢

lemma rc_monitoring_none (data : Snapshot) (s : State)
    (hc : data.current_job = none) (hs : data.staged_job = none) :
    (render_current_job data s).monitoring = false := by
  unfold render_current_job
  simp [hc, hs]

@[simp] lemma rs_push (data : Snapshot) (s : State) :
    (render_staged_job data s).push_queue_on_update
      = s.push_queue_on_update := by
  unfold render_staged_job; cases data.staged_job <;> rfl

@[simp] lemma rs_monitoring (data : Snapshot) (s : State) :
    (render_staged_job data s).monitoring = s.monitoring := by
  unfold render_staged_job; cases data.staged_job <;> rfl

@[simp] lemma rs_xp_id_attr (data : Snapshot) (s : State) :
    (render_staged_job data s).xp_id_attr = s.xp_id_attr := by
  unfold render_staged_job; cases data.staged_job <;> rfl

@[simp] lemma rs_calls (data : Snapshot) (s : State) :
    (render_staged_job data s).calls = s.calls := by
  unfold render_staged_job; cases data.staged_job <;> rfl

@[simp] lemma rs_timeouts (data : Snapshot) (s : State) :
    (render_staged_job data s).timeouts = s.timeouts := by
  unfold render_staged_job; cases data.staged_job <;> rfl

@[simp] lemma rs_queue_dom (data : Snapshot) (s : State) :
    (render_staged_job data s).queue_dom = s.queue_dom := by
  unfold render_staged_job; cases data.staged_job <;> rfl

@[simp] lemma rs_placeholder (data : Snapshot) (s : State) :
    (render_staged_job data s).placeholder_shown = s.placeholder_shown := by
  unfold render_staged_job; cases data.staged_job <;> rfl

@[simp] lemma rs_cjw_visible (data : Snapshot) (s : State) :
    (render_staged_job data s).current_job_wrapper_visible
      = s.current_job_wrapper_visible := by
  unfold render_staged_job; cases data.staged_job <;> rfl

@[simp] lemma rq_push (q : QueueField) (r : Option String) (s : State) :
    (render_queue q r s).1.push_queue_on_update = s.push_queue_on_update := by
  unfold render_queue; cases q <;> simp <;> split <;> rfl

@[simp] lemma rq_monitoring (q : QueueField) (r : Option String) (s : State) :
    (render_queue q r s).1.monitoring = s.monitoring := by
  unfold render_queue; cases q <;> simp <;> split <;> rfl

@[simp] lemma rq_xp_id_attr (q : QueueField) (r : Option String) (s : State) :
    (render_queue q r s).1.xp_id_attr = s.xp_id_attr := by
  unfold render_queue; cases q <;> simp <;> split <;> rfl

@[simp] lemma rq_calls (q : QueueField) (r : Option String) (s : State) :
    (render_queue q r s).1.calls = s.calls := by
  unfold render_queue; cases q <;> simp <;> split <;> rfl

@[simp] lemma rq_timeouts (q : QueueField) (r : Option String) (s : State) :
    (render_queue q r s).1.timeouts = s.timeouts := by
  unfold render_queue; cases q <;> simp <;> split <;> rfl

@[simp] lemma rq_cjw_visible (q : QueueField) (r : Option String) (s : State) :
    (render_queue q r s).1.current_job_wrapper_visible
      = s.current_job_wrapper_visible := by
  unfold render_queue; cases q <;> simp <;> split <;> rfl
/-- `repopulate_fields` written with its intermediate states named: the xp
adoption, then `check_xp_id`, then (when the check result is loosely unequal
to `false`) the three render steps. -/
lemma repopulate_fields_eq (data : Snapshot) (s : State) :
    repopulate_fields data s =
      if jsNeqFalse (check_xp_id (adopt_xp data s)).1 = true then
        render_queue data.queue (check_xp_id (adopt_xp data s)).1
          (render_staged_job data
            (render_current_job data
              { (check_xp_id (adopt_xp data s)).2 with
                  cjq_wrapper_visible := true }))
      else ((check_xp_id (adopt_xp data s)).2, false) := by
  unfold repopulate_fields
  rcases h : check_xp_id (adopt_xp data s) with ⟨r, s2⟩
  simp [h]

/-! Concrete sample data -/

/-- A running job, as `cjc.complete_status` would report it. -/
def cj_run : CurrentJob := ⟨"running", 3, 10, 5, 2, 42, "1", some 7⟩

/-- The state with experiment `"1"` selected and nothing else going on. -/
def sel_state : State :=
  { init_state with
    xp_id_attr := "1"
    xp_names := [("1", "Fish Experiment")]
    xp_species := [("1", "fish")] }

/-- A snapshot whose `queue` field is entirely absent (JS `undefined`). -/
def snap_queue_absent : Snapshot := ⟨none, none, none, .undef⟩

/-- A snapshot with a current job but no `xp_id` field. -/
def snap_cj_only : Snapshot := ⟨none, some cj_run, none, .arr []⟩

/-- The all-quiet snapshot: no current job, no staged job, empty queue. -/
def snap_empty : Snapshot := ⟨none, none, none, .arr []⟩

/-- A snapshot carrying both an `xp_id` and a current job. -/
def snap_adopt : Snapshot := ⟨some "1", some cj_run, none, .arr []⟩

/-- `sel_state` with PushPolicy on. -/
def pushing_state : State := { sel_state with push_queue_on_update := true }

/-! C1 -/

/-- C1 (counterexample): the claim says PushPolicy equals the snapshot's
`currentJob` presence immediately after *every* `apply`.  Applying a snapshot
that carries a current job but no `xp_id`, while no experiment is selected,
skips the whole body of `repopulate_fields` (line 12's guard fails), so
`window.ff.push_queue_on_update` keeps its historical value `false` although
`currentJob` is present. -/
theorem claim_C1_cex :
    snap_cj_only.current_job.isSome = true
      ∧ (repopulate_fields snap_cj_only init_state).1.push_queue_on_update
          = false := by
  constructor
  · rfl
  · decide

/-- C1 (amended): immediately after every `apply(snapshot)` call made while
the experiment check passes (after the snapshot's xp adoption, line 12's
guard holds), PushPolicy equals whether that snapshot's `currentJob` field is
present; it is recomputed on every such application and never reflects a
historical snapshot. -/
theorem claim_C1 (data : Snapshot) (s : State)
    (h : xp_gate (adopt_xp data s) = true) :
    (repopulate_fields data s).1.push_queue_on_update
      = data.current_job.isSome := by
  unfold xp_gate at h
  rw [repopulate_fields_eq, if_pos h]
  simp

/-- C1 (witness): a concrete snapshot with a current job and `xp_id` `"1"`,
applied from the startup state, passes the experiment check and sets
PushPolicy to true. -/
theorem claim_C1_witness :
    xp_gate (adopt_xp snap_adopt init_state) = true
      ∧ (repopulate_fields snap_adopt init_state).1.push_queue_on_update
          = snap_adopt.current_job.isSome :=
  ⟨by decide, claim_C1 snap_adopt init_state (by decide)⟩

/-! C3 -/

/-- C3 (counterexample): the claim says `apply` completes without error for
every snapshot whose queue is empty or entirely absent.  With experiment
`"1"` selected, applying a snapshot whose `queue` field is entirely absent
(JS `undefined`) reaches line 48's `data.queue.length` and throws a
TypeError, so `apply` does not complete without error. -/
theorem claim_C3_cex :
    snap_queue_absent.queue = QueueField.undef
      ∧ (repopulate_fields snap_queue_absent sel_state).2 = true := by
  constructor
  · rfl
  · decide

/-- C3 (amended): `apply(snapshot)` completes without error for every
snapshot whose queue is the empty array or the falsy `false` sentinel, and —
when the experiment check passes — renders the empty-queue placeholder,
identically in the two cases; a snapshot whose `queue` field is entirely
absent (JS `undefined`) instead makes `apply` throw whenever the experiment
check passes. -/
theorem claim_C3 (data : Snapshot) (s : State) :
    (data.queue = QueueField.arr [] ∨ data.queue = QueueField.jsFalse →
       (repopulate_fields data s).2 = false
         ∧ (xp_gate (adopt_xp data s) = true →
              (repopulate_fields data s).1.queue_dom = []
                ∧ (repopulate_fields data s).1.placeholder_shown = true))
      ∧ repopulate_fields { data with queue := QueueField.arr [] } s
          = repopulate_fields { data with queue := QueueField.jsFalse } s := by
  constructor
  · intro hq
    unfold xp_gate
    rw [repopulate_fields_eq]
    rcases hq with hq | hq <;>
      rw [hq] <;>
      split <;>
      simp_all [render_queue]
  · rfl

/-- C3 (witness): the all-quiet snapshot (empty queue array) applied with
experiment `"1"` selected completes without error and renders the
placeholder. -/
theorem claim_C3_witness :
    snap_empty.queue = QueueField.arr []
      ∧ xp_gate (adopt_xp snap_empty sel_state) = true
      ∧ (repopulate_fields snap_empty sel_state).2 = false
      ∧ (repopulate_fields snap_empty sel_state).1.queue_dom = []
      ∧ (repopulate_fields snap_empty sel_state).1.placeholder_shown = true := by
  refine ⟨rfl, by decide, ?_, ?_, ?_⟩
  · exact ((claim_C3 snap_empty sel_state).1 (Or.inl rfl)).1
  · exact (((claim_C3 snap_empty sel_state).1 (Or.inl rfl)).2 (by decide)).1
  · exact (((claim_C3 snap_empty sel_state).1 (Or.inl rfl)).2 (by decide)).2

/-! C5 -/

/-- C5 (counterexample): the claim says every `apply` of a snapshot with
neither `currentJob` nor `stagedJob` disarms the recurring monitor.  With no
experiment selected (monitor started by hand via `#monitor_button`), the body
of `repopulate_fields` is skipped and the monitor stays armed. -/
theorem claim_C5_cex :
    snap_empty.current_job = none ∧ snap_empty.staged_job = none
      ∧ (repopulate_fields snap_empty
            (start_periodic_monitor init_state)).1.monitoring = true := by
  refine ⟨rfl, rfl, by decide⟩

/-- C5 (amended): for every `apply(snapshot)` made while the experiment check
passes (after the snapshot's xp adoption): if the snapshot contains a
`currentJob` the recurring monitor is armed afterwards; if it contains
neither a `currentJob` nor a `stagedJob` the recurring monitor is disarmed
afterwards. -/
theorem claim_C5 (data : Snapshot) (s : State)
    (h : xp_gate (adopt_xp data s) = true) :
    (data.current_job.isSome = true →
       (repopulate_fields data s).1.monitoring = true)
      ∧ (data.current_job = none → data.staged_job = none →
           (repopulate_fields data s).1.monitoring = false) := by
  unfold xp_gate at h
  rw [repopulate_fields_eq, if_pos h]
  constructor
  · intro hc
    simp [rc_monitoring_some _ _ hc]
  · intro hc hs
    simp [rc_monitoring_none _ _ hc hs]

/-- C5 (witness): applying `snap_adopt` (current job present) from startup
arms the monitor; applying the all-quiet snapshot with experiment `"1"`
selected disarms it. -/
theorem claim_C5_witness :
    xp_gate (adopt_xp snap_adopt init_state) = true
      ∧ (repopulate_fields snap_adopt init_state).1.monitoring = true
      ∧ xp_gate (adopt_xp snap_empty sel_state) = true
      ∧ (repopulate_fields snap_empty sel_state).1.monitoring = false :=
  ⟨by decide,
   (claim_C5 snap_adopt init_state (by decide)).1 rfl,
   by decide,
   (claim_C5 snap_empty sel_state (by decide)).2 rfl rfl⟩

/-! C9 -/

/-- C9 (counterexample): the claim says that with no experiment selected,
`apply` leaves PushPolicy and the monitor unchanged for *every* snapshot
content, including one with a `currentJob`.  But a snapshot carrying both an
`xp_id` and a `currentJob` is adopted (lines 5–8), the check then passes, and
PushPolicy flips to true (and the monitor is armed). -/
theorem claim_C9_cex :
    init_state.xp_id_attr = "" ∧ snap_adopt.current_job.isSome = true
      ∧ init_state.push_queue_on_update = false
      ∧ (repopulate_fields snap_adopt init_state).1.push_queue_on_update
          = true
      ∧ init_state.monitoring = false
      ∧ (repopulate_fields snap_adopt init_state).1.monitoring = true := by
  refine ⟨rfl, rfl, rfl, by decide, rfl, by decide⟩

/-- C9 (amended): when no ExperimentId is selected (the stored id is the
empty or `'false'` sentinel) and the experiment check still fails after the
snapshot's xp adoption (so in particular for every snapshot that does not
carry both an `xp_id` and a `currentJob`), `apply(snapshot)` leaves
PushPolicy, the recurring-monitor state, the rendered job fields and the
queue contents unchanged, issues no call, and completes without error. -/
theorem claim_C9 (data : Snapshot) (s : State)
    (_hsel : s.xp_id_attr = "" ∨ s.xp_id_attr = "false")
    (h : xp_gate (adopt_xp data s) = false) :
    (repopulate_fields data s).1.push_queue_on_update = s.push_queue_on_update
      ∧ (repopulate_fields data s).1.monitoring = s.monitoring
      ∧ (repopulate_fields data s).1.active_intervals = s.active_intervals
      ∧ (repopulate_fields data s).1.current_job_render = s.current_job_render
      ∧ (repopulate_fields data s).1.staged_job_render = s.staged_job_render
      ∧ (repopulate_fields data s).1.queue_dom = s.queue_dom
      ∧ (repopulate_fields data s).1.calls = s.calls
      ∧ (repopulate_fields data s).2 = false := by
  unfold xp_gate at h
  rw [repopulate_fields_eq, if_neg (by simp [h])]
  simp

/-- C9 (witness): the all-quiet snapshot applied at startup (no experiment
selected) changes neither PushPolicy nor the monitor nor the queue. -/
theorem claim_C9_witness :
    init_state.xp_id_attr = ""
      ∧ xp_gate (adopt_xp snap_empty init_state) = false
      ∧ (repopulate_fields snap_empty init_state).1.push_queue_on_update
          = init_state.push_queue_on_update
      ∧ (repopulate_fields snap_empty init_state).1.monitoring
          = init_state.monitoring
      ∧ (repopulate_fields snap_empty init_state).1.queue_dom
          = init_state.queue_dom :=
  ⟨rfl, by decide,
   (claim_C9 snap_empty init_state (Or.inl rfl) (by decide)).1,
   (claim_C9 snap_empty init_state (Or.inl rfl) (by decide)).2.1,
   (claim_C9 snap_empty init_state (Or.inl rfl) (by decide)).2.2.2.2.2.1⟩

/-! C10 -/

/-- C10 (confirmed): `apply(snapshot)` adopts the snapshot's `xp_id` into the
locally selected ExperimentId only when the snapshot also contains a
`currentJob` (lines 5–8); for every snapshot carrying an `xp_id` but no
`currentJob` — and for every snapshot carrying no `xp_id` at all — the
`data-xp_id` attribute is unchanged, and when both fields are present the
attribute becomes the snapshot's `xp_id`. -/
theorem claim_C10 (data : Snapshot) (s : State) (xid : String)
    (cj : CurrentJob) :
    (data.current_job = none →
       (repopulate_fields data s).1.xp_id_attr = s.xp_id_attr)
      ∧ (data.xp_id = none →
           (repopulate_fields data s).1.xp_id_attr = s.xp_id_attr)
      ∧ (data.xp_id = some xid → data.current_job = some cj →
           (repopulate_fields data s).1.xp_id_attr = xid) := by
  have attr_after : ∀ t : State,
      (repopulate_fields data s).1.xp_id_attr = (adopt_xp data s).xp_id_attr := by
    intro _
    rw [repopulate_fields_eq]
    split <;> simp
  refine ⟨?_, ?_, ?_⟩
  · intro hc
    rw [attr_after s]
    unfold adopt_xp
    rw [hc]
    cases data.xp_id <;> rfl
  · intro hx
    rw [attr_after s]
    unfold adopt_xp
    rw [hx]
  · intro hx hc
    rw [attr_after s]
    unfold adopt_xp
    rw [hx, hc]

/-- C10 (witness): the all-quiet snapshot leaves the selected id `"1"`
unchanged; `snap_adopt` (xp `"1"` plus a current job) applied at startup
adopts `"1"`. -/
theorem claim_C10_witness :
    snap_empty.current_job = none
      ∧ (repopulate_fields snap_empty sel_state).1.xp_id_attr
          = sel_state.xp_id_attr
      ∧ snap_adopt.xp_id = some "1" ∧ snap_adopt.current_job = some cj_run
      ∧ (repopulate_fields snap_adopt init_state).1.xp_id_attr = "1" :=
  ⟨rfl,
   (claim_C10 snap_empty sel_state ("1") cj_run).1 rfl,
   rfl, rfl,
   (claim_C10 snap_adopt init_state ("1") cj_run).2.2 rfl rfl⟩

/-! C7 -/

/-- C7 (confirmed): the recurring monitor's `start()` and `stop()` are
idempotent — a second `start()` right after a first changes nothing, a second
`stop()` right after a first changes nothing, `stop()` when never started
(the startup state) changes nothing, and a `start()` from a non-monitoring
state registers exactly one new 500 ms interval. -/
theorem claim_C7 (s : State) :
    start_periodic_monitor (start_periodic_monitor s)
        = start_periodic_monitor s
      ∧ stop_periodic_monitor (stop_periodic_monitor s)
          = stop_periodic_monitor s
      ∧ stop_periodic_monitor init_state = init_state
      ∧ (s.monitoring = false →
           (start_periodic_monitor s).active_intervals
               = s.active_intervals ++ [⟨s.next_handle, 500⟩]
             ∧ (start_periodic_monitor s).monitoring = true) := by
  refine ⟨?_, ?_, rfl, ?_⟩
  · unfold start_periodic_monitor
    cases h : s.monitoring <;> simp [h]
  · unfold stop_periodic_monitor
    cases h : s.update_loop_handle <;>
      simp [h, List.filter_filter]
  · intro h
    unfold start_periodic_monitor
    simp [h]

/-- C7 (witness): from the startup state, `start()` registers one 500 ms
interval and marks the monitor active. -/
theorem claim_C7_witness :
    init_state.monitoring = false
      ∧ (start_periodic_monitor init_state).active_intervals
          = init_state.active_intervals ++ [⟨init_state.next_handle, 500⟩]
      ∧ (start_periodic_monitor init_state).monitoring = true :=
  ⟨rfl,
   ((claim_C7 init_state).2.2.2 rfl).1,
   ((claim_C7 init_state).2.2.2 rfl).2⟩

/-! Small frame lemmas for the call-issuing helpers -/

@[simp] lemma njp_calls (s : State) :
    (no_jobs_placeholder s).calls = s.calls := by
  unfold no_jobs_placeholder; split <;> rfl

@[simp] lemma njp_timeouts (s : State) :
    (no_jobs_placeholder s).timeouts = s.timeouts := by
  unfold no_jobs_placeholder; split <;> rfl

@[simp] lemma njp_monitoring (s : State) :
    (no_jobs_placeholder s).monitoring = s.monitoring := by
  unfold no_jobs_placeholder; split <;> rfl

@[simp] lemma njp_queue_dom (s : State) :
    (no_jobs_placeholder s).queue_dom = s.queue_dom := by
  unfold no_jobs_placeholder; split <;> rfl

@[simp] lemma njp_push (s : State) :
    (no_jobs_placeholder s).push_queue_on_update = s.push_queue_on_update := by
  unfold no_jobs_placeholder; split <;> rfl

@[simp] lemma njp_xp_id_attr (s : State) :
    (no_jobs_placeholder s).xp_id_attr = s.xp_id_attr := by
  unfold no_jobs_placeholder; split <;> rfl

@[simp] lemma njp_xp_species (s : State) :
    (no_jobs_placeholder s).xp_species = s.xp_species := by
  unfold no_jobs_placeholder; split <;> rfl

/-! C6 -/

/-- C6 (confirmed): every mutating controller call this file issues —
`cjc.set_queue` from `push_entire_queue`, `cjc.set_queue` from
`clear_queue` (when PushPolicy is on), and `cjc.abort_all` from `abort_all`
— registers `repop_in_1_second` as its completion callback, and that
callback, from any state whatsoever (so regardless of whether the recurring
monitor is running), schedules exactly one 1000 ms `repop_now` timeout and
issues no call of its own; when the timeout fires, `repop_now` performs
exactly one fetch-status call. -/
theorem claim_C6 (s : State) :
    (push_entire_queue s).calls = s.calls ++ [set_queue_call s]
      ∧ (set_queue_call s).callback = CallbackId.repop_in_1_second
      ∧ (abort_all s).calls = s.calls
          ++ [⟨"cjc.abort_all", CallbackId.repop_in_1_second,
               CelArg.undef, CelArg.undef⟩]
      ∧ (s.push_queue_on_update = true →
           (clear_queue s).calls = s.calls
             ++ [⟨"cjc.set_queue", CallbackId.repop_in_1_second, CelArg.jsFalse,
                  CelArg.payload (QueueArg.jsonStr []) (get_xp_id s)
                    (s.xp_species.lookup (jsKey (get_xp_id s)))⟩])
      ∧ (repop_in_1_second s).timeouts
          = s.timeouts ++ [(TimerAction.repopNow, 1000)]
      ∧ (repop_in_1_second s).calls = s.calls
      ∧ (repop_in_1_second s).monitoring = s.monitoring
      ∧ (repop_now s).calls = s.calls ++ [fetch_status_call] := by
  refine ⟨rfl, rfl, rfl, ?_, rfl, rfl, rfl, rfl⟩
  intro h
  unfold clear_queue
  rw [if_pos h]
  rfl

/-- C6 (witness): from `pushing_state` (PushPolicy on), `clear_queue` issues
its call with `repop_in_1_second` registered, and `repop_in_1_second`
schedules exactly the 1000 ms re-poll. -/
theorem claim_C6_witness :
    pushing_state.push_queue_on_update = true
      ∧ (clear_queue pushing_state).calls = pushing_state.calls
          ++ [⟨"cjc.set_queue", CallbackId.repop_in_1_second, CelArg.jsFalse,
               CelArg.payload (QueueArg.jsonStr []) (get_xp_id pushing_state)
                 (pushing_state.xp_species.lookup
                   (jsKey (get_xp_id pushing_state)))⟩]
      ∧ (repop_in_1_second pushing_state).timeouts
          = pushing_state.timeouts ++ [(TimerAction.repopNow, 1000)] :=
  ⟨rfl,
   (claim_C6 pushing_state).2.2.2.1 rfl,
   (claim_C6 pushing_state).2.2.2.2.1⟩

/-! C2 -/

/-- C2 (confirmed): on drop of a drag edit — the sortable `update` handler
for a reorder (the widget has already put `queue_dom` in its new order), or
the `beforeStop` handler with `keep_job_in_queue = 0` for a drag-out
deletion — if PushPolicy is true then exactly one replace-queue
(`cjc.set_queue`) call is issued, carrying the entire working copy in its new
order, with the one-shot re-poll callback `repop_in_1_second` registered on
it (followed by the handler's immediate status fetch), and the recurring
monitor is active afterwards; if PushPolicy is false then no network call of
any kind is issued, nothing is scheduled, and the edit stays local. -/
theorem claim_C2 (s : State) (idx : Nat) (item : JobSpec) :
    (s.push_queue_on_update = true →
       (sortable_update s).calls = s.calls
           ++ [⟨"cjc.set_queue", CallbackId.repop_in_1_second,
                CelArg.payload (QueueArg.raw s.queue_dom) (get_xp_id s)
                  (s.xp_species.lookup (jsKey (get_xp_id s))), CelArg.undef⟩,
               fetch_status_call]
         ∧ (sortable_update s).monitoring = true
         ∧ (sortable_update s).queue_dom = s.queue_dom)
      ∧ (s.push_queue_on_update = false →
           (sortable_update s).calls = s.calls
             ∧ (sortable_update s).timeouts = s.timeouts
             ∧ (sortable_update s).queue_dom = s.queue_dom)
      ∧ (s.keep_job_in_queue = 0 → s.push_queue_on_update = true →
           (sortable_beforeStop idx item s).calls = s.calls
               ++ [⟨"cjc.set_queue", CallbackId.repop_in_1_second,
                    CelArg.payload (QueueArg.raw (s.queue_dom.eraseIdx idx))
                      (get_xp_id s)
                      (s.xp_species.lookup (jsKey (get_xp_id s))),
                    CelArg.undef⟩,
                   fetch_status_call]
             ∧ (sortable_beforeStop idx item s).monitoring = true
             ∧ (sortable_beforeStop idx item s).queue_dom
                 = s.queue_dom.eraseIdx idx)
      ∧ (s.keep_job_in_queue = 0 → s.push_queue_on_update = false →
           (sortable_beforeStop idx item s).calls = s.calls
             ∧ (sortable_beforeStop idx item s).timeouts = s.timeouts
             ∧ (sortable_beforeStop idx item s).queue_dom
                 = s.queue_dom.eraseIdx idx) := by
  refine ⟨?_, ?_, ?_, ?_⟩
  · intro h
    unfold sortable_update
    simp [h, push_entire_queue, repop_now, celery_async, get_queue_array,
      get_xp_id, fetch_status_call]
  · intro h
    unfold sortable_update
    simp [h]
  · intro h0 h
    unfold sortable_beforeStop
    rw [if_pos h0]
    dsimp only
    split <;>
      simp [h, push_entire_queue, repop_now, celery_async, get_queue_array,
        get_xp_id, fetch_status_call]
  · intro h0 h
    unfold sortable_beforeStop
    rw [if_pos h0]
    dsimp only
    split <;> simp [h]

/-- `pushing_state` after the widget moved the first job of `["A","B","C"]`
to index 2: the DOM list already reads `["B","C","A"]` when the `update`
handler fires. -/
def reordered_state : State :=
  { pushing_state with queue_dom := ["B", "C", "A"] }

/-- C2 (witness): the spec's reorder property.  With PushPolicy on and the
working queue re-ordered to `["B","C","A"]`, the drop handler issues exactly
one replace-queue call with that exact ordered payload (followed by its
immediate status fetch) and leaves the monitor active. -/
theorem claim_C2_witness :
    reordered_state.push_queue_on_update = true
      ∧ (sortable_update reordered_state).calls = reordered_state.calls
          ++ [⟨"cjc.set_queue", CallbackId.repop_in_1_second,
               CelArg.payload (QueueArg.raw ["B", "C", "A"]) (some "1")
                 (some "fish"), CelArg.undef⟩,
              fetch_status_call]
      ∧ (sortable_update reordered_state).monitoring = true :=
  ⟨rfl,
   ((claim_C2 reordered_state 0 ("A")).1 rfl).1,
   ((claim_C2 reordered_state 0 ("A")).1 rfl).2.1⟩

/-! C8 -/

/-- C8 (confirmed): select-experiment while a CurrentJob is present in the
last-applied snapshot — recorded by the visible `#current_job_wrapper`,
which after any apply that passes the experiment check equals the snapshot's
`currentJob` presence — is rejected locally: the ExperimentId attribute
stays unchanged, the transient `#no_change_during_run` warning is rendered
with its 3000 ms auto-dismiss scheduled (firing it removes the warning), the
selector's visibility is untouched, and no network call is issued.  When no
CurrentJob is present, submitting the selector form updates the ExperimentId
and triggers exactly one immediate fetch-status call. -/
theorem claim_C8 (s s0 : State) (data : Snapshot) (chosen : Int) :
    (s.current_job_wrapper_visible = true →
       (change_experiment s).xp_id_attr = s.xp_id_attr
         ∧ (change_experiment s).warning_shown = true
         ∧ (change_experiment s).timeouts
             = s.timeouts ++ [(TimerAction.removeWarning, 3000)]
         ∧ (change_experiment s).calls = s.calls
         ∧ (change_experiment s).xp_select_visible = s.xp_select_visible
         ∧ (remove_warning (change_experiment s)).warning_shown = false)
      ∧ (xp_gate (adopt_xp data s0) = true →
           (repopulate_fields data s0).1.current_job_wrapper_visible
             = data.current_job.isSome)
      ∧ (xp_select_form_submit chosen s).xp_id_attr = toString chosen
      ∧ (xp_select_form_submit chosen s).calls
          = s.calls ++ [fetch_status_call] := by
  refine ⟨?_, ?_, ?_, ?_⟩
  · intro h
    unfold change_experiment
    rw [if_neg (by simp [h])]
    exact ⟨rfl, rfl, rfl, rfl, rfl, rfl⟩
  · intro h
    unfold xp_gate at h
    rw [repopulate_fields_eq, if_pos h]
    simp
  · unfold xp_select_form_submit repop_now celery_async
    simp
  · unfold xp_select_form_submit repop_now celery_async
    simp [fetch_status_call]

/-- The state with experiment `"1"` selected and the current-job wrapper
displayed, as after applying a snapshot with a running job. -/
def running_state : State :=
  { sel_state with current_job_wrapper_visible := true }

/-- C8 (witness): with a job running, the change-experiment button leaves the
id `"1"` untouched, warns, and issues nothing; applying `snap_adopt` shows
the wrapper; with no job running, submitting the selector with radio value 2
sets the id to `"2"` and fetches status once. -/
theorem claim_C8_witness :
    running_state.current_job_wrapper_visible = true
      ∧ (change_experiment running_state).xp_id_attr
          = running_state.xp_id_attr
      ∧ (change_experiment running_state).warning_shown = true
      ∧ (change_experiment running_state).calls = running_state.calls
      ∧ xp_gate (adopt_xp snap_adopt init_state) = true
      ∧ (repopulate_fields snap_adopt
            init_state).1.current_job_wrapper_visible = true
      ∧ (xp_select_form_submit 2 init_state).xp_id_attr = "2"
      ∧ (xp_select_form_submit 2 init_state).calls
          = init_state.calls ++ [fetch_status_call] :=
  ⟨rfl,
   ((claim_C8 running_state init_state snap_adopt 2).1 rfl).1,
   ((claim_C8 running_state init_state snap_adopt 2).1 rfl).2.1,
   ((claim_C8 running_state init_state snap_adopt 2).1 rfl).2.2.2.1,
   by decide,
   (claim_C8 running_state init_state snap_adopt 2).2.1 (by decide),
   (claim_C8 init_state init_state snap_adopt 2).2.2.1,
   (claim_C8 init_state init_state snap_adopt 2).2.2.2⟩

/-! C4 -/

/-- C4 (code bug): with PushPolicy on, `clear_queue` does issue a
`cjc.set_queue` call, but its third argument — the payload position, as used
by every other `celery_async` call site in this file — is the literal
`false`; the `{queue: JSON.stringify([]), xp_id, species}` object is shifted
into the fourth argument.  So the replace-queue call does not carry the
empty-queue payload the spec intends.  With PushPolicy off, the operation
only resets the local render to the placeholder and issues no call. -/
theorem claim_C4 :
    pushing_state.push_queue_on_update = true
      ∧ (clear_queue pushing_state).calls
          = [⟨"cjc.set_queue", CallbackId.repop_in_1_second, CelArg.jsFalse,
              CelArg.payload (QueueArg.jsonStr []) (some "1") (some "fish")⟩]
      ∧ (clear_queue
            { pushing_state with push_queue_on_update := false }).calls = []
      ∧ (clear_queue
            { pushing_state with push_queue_on_update := false }).queue_dom
          = []
      ∧ (clear_queue
            { pushing_state with
                push_queue_on_update := false }).placeholder_shown = true := by
  exact ⟨rfl, by decide, rfl, rfl, rfl⟩

end OldCq
